import Mathlib

/-!
Verification of the retry/backoff wrapper around two chat-completion APIs
(agentless/util/api_requests.py) and the JSON formatting CLI
(all_repo_structures/_format_json_files.py).

The Python code is shallowly embedded: dictionaries become structures with
optional fields (a field equal to none models an absent key), Python floats
become rationals, and each request executor becomes a function from an
abstract provider oracle (one outcome per dispatched call) to a result
record that also carries the observable trace (dispatch count, sleep
durations, log messages, final configuration).
-/

/-- A cache-control annotation on an Anthropic content block, such as the
value written by the prompt-caching path of request_anthropic_engine. -/
structure CacheControl where
  type : String
deriving DecidableEq, Repr

/-- One entry of an Anthropic-style structured content list, for example
the dictionary with keys type and text built by create_anthropic_config. -/
structure ContentBlock where
  type : String
  text : String
  cache_control : Option CacheControl := none
deriving DecidableEq, Repr

/-- The content of a message: either a plain string (OpenAI-style) or a
list of content blocks (Anthropic-style). -/
inductive MsgContent where
  | str (s : String)
  | blocks (bs : List ContentBlock)
deriving DecidableEq, Repr

/-- A role-tagged message, as stored under the messages key of a request
configuration. -/
structure ChatMessage where
  role : String
  content : MsgContent
deriving DecidableEq, Repr

/-- The request-configuration dictionary. Each optional field models one
possible dictionary key; none models an absent key. Tool declarations are
opaque to the wrapper, so they are modelled as plain strings. -/
structure Config where
  model : Option String := none
  temperature : Option ℚ := none
  max_tokens : Option Int := none
  max_completion_tokens : Option Int := none
  n : Option Int := none
  reasoning_effort : Option String := none
  messages : Option (List ChatMessage) := none
  tools : Option (List String) := none
deriving DecidableEq, Repr

/-- The prompt argument of the config builders: Python Union of a string
and a list of messages. -/
inductive PromptInput where
  | str (s : String)
  | list (msgs : List ChatMessage)
deriving DecidableEq, Repr

/-- Embeds create_chatgpt_config. The Python defaults are temperature 1,
batch_size 1, the helpful-assistant system message, and reasoning_effort
minimal; all arguments are passed explicitly here. The temperature
argument is accepted and ignored, exactly as in the source. -/
def create_chatgpt_config (message : PromptInput) (max_tokens : Int)
    (temperature : ℚ) (batch_size : Int) (system_message : String)
    (model : String) (reasoning_effort : String) : Config :=
  match message with
  | .list msgs =>
      { model := some model
        max_completion_tokens := some max_tokens
        n := some batch_size
        reasoning_effort := some reasoning_effort
        messages := some ({ role := "system", content := .str system_message } :: msgs) }
  | .str s =>
      { model := some model
        max_completion_tokens := some max_tokens
        n := some batch_size
        reasoning_effort := some reasoning_effort
        messages := some
          [{ role := "system", content := .str system_message },
           { role := "user", content := .str s }] }

/-- Embeds create_anthropic_config. The batch_size and system_message
arguments are accepted and ignored, exactly as in the source; the tools
key is added only when the tools argument is a non-empty list (Python
truthiness of the default None and of an empty list). -/
def create_anthropic_config (message : PromptInput) (max_tokens : Int)
    (temperature : ℚ) (batch_size : Int) (system_message : String)
    (model : String) (tools : Option (List String)) : Config :=
  let base : Config :=
    match message with
    | .list msgs =>
        { model := some model
          temperature := some temperature
          max_tokens := some max_tokens
          messages := some msgs }
    | .str s =>
        { model := some model
          temperature := some temperature
          max_tokens := some max_tokens
          messages := some
            [{ role := "user", content := .blocks [{ type := "text", text := s }] }] }
  match tools with
  | some ts => if ts.isEmpty then base else { base with tools := some ts }
  | none => base

lemma create_anthropic_config_messages (message : PromptInput) (max_tokens : Int)
    (temperature : ℚ) (batch_size : Int) (system_message : String)
    (model : String) (tools : Option (List String)) :
    (create_anthropic_config message max_tokens temperature batch_size
        system_message model tools).messages =
      match message with
      | .str s => some [{ role := "user", content := .blocks [{ type := "text", text := s }] }]
      | .list msgs => some msgs := by
  rcases tools with _ | ts
  · cases message <;> rfl
  · by_cases h : ts.isEmpty <;> cases message <;>
      simp [create_anthropic_config, h]

/-- C7 (counterexample): for a string prompt the Anthropic-style builder
produces a single user message and injects no system entry, so its message
sequence is not the claimed pair of a system message followed by a user
message. -/
theorem builder_messages_counterexample :
    ((create_anthropic_config (.str "hi") 100 1 1 "You are a helpful assistant."
        "claude-2.1" none).messages.getD []).length = 1 ∧
    ((create_anthropic_config (.str "hi") 100 1 1 "You are a helpful assistant."
        "claude-2.1" none).messages.getD []).all
      (fun m => m.role != "system") = true := by
  constructor <;> rfl

/-- C7 (amended): for the OpenAI-style builder a string prompt yields
exactly the system message followed by the user message and a list prompt
yields exactly the system message prepended to the list; for the
Anthropic-style builder a list prompt yields exactly the input list with
no system entry injected, and a string prompt yields a single user message
wrapping the prompt in one text block. -/
theorem builder_messages_shape :
    (∀ p mt t b s m re, (create_chatgpt_config (.str p) mt t b s m re).messages =
        some [{ role := "system", content := .str s },
              { role := "user", content := .str p }]) ∧
    (∀ l mt t b s m re, (create_chatgpt_config (.list l) mt t b s m re).messages =
        some ({ role := "system", content := .str s } :: l)) ∧
    (∀ l mt t b s m tools, (create_anthropic_config (.list l) mt t b s m tools).messages =
        some l) ∧
    (∀ p mt t b s m tools, (create_anthropic_config (.str p) mt t b s m tools).messages =
        some [{ role := "user", content := .blocks [{ type := "text", text := p }] }]) := by
  refine ⟨fun p mt t b s m re => rfl, fun l mt t b s m re => rfl, ?_, ?_⟩
  · intro l mt t b s m tools
    exact create_anthropic_config_messages (.list l) mt t b s m tools
  · intro p mt t b s m tools
    exact create_anthropic_config_messages (.str p) mt t b s m tools

/-! Section: Cooldown Gate

The process-wide throttle _sleep_if_needed_for_openai_cooldown reads the
clock under a lock, sleeps for the remainder of the cooldown interval if
the previous recorded dispatch start is too recent, and then records a new
dispatch-start timestamp. Time is modelled by rationals; sleeping is
modelled as advancing the clock by exactly the requested amount, with the
second clock read taken immediately after the sleep (the idealized
single-thread schedule the spec calls scheduling tolerance). -/

/-- One call to the cooldown gate: given the interval, the previously
recorded timestamp and the clock value at entry, returns the newly
recorded dispatch-start timestamp. -/
def cooldownRecord (interval last now : ℚ) : ℚ :=
  let wait := interval - (now - last)
  if 0 < wait then now + wait else now

/-- A sequence of calls to the cooldown gate: arrivals lists the clock
value at which each call reads the clock; the result lists the recorded
dispatch-start timestamps in order. -/
def cooldownRun (interval : ℚ) : ℚ → List ℚ → List ℚ
  | _, [] => []
  | last, now :: rest =>
      cooldownRecord interval last now ::
        cooldownRun interval (cooldownRecord interval last now) rest

lemma cooldownRecord_ge (interval last now : ℚ) :
    interval ≤ cooldownRecord interval last now - last := by
  show interval ≤
    (if 0 < interval - (now - last) then now + (interval - (now - last)) else now) - last
  split <;> rename_i h <;> linarith

lemma cooldownRun_head_ge (interval last : ℚ) (arrivals : List ℚ) (b : ℚ)
    (hb : (cooldownRun interval last arrivals).get? 0 = some b) :
    interval ≤ b - last := by
  cases arrivals with
  | nil => simp [cooldownRun] at hb
  | cons now rest =>
      simp only [cooldownRun, List.get?] at hb
      obtain rfl : cooldownRecord interval last now = b := by
        simpa using hb
      exact cooldownRecord_ge interval last now

/-- C1: along any sequence of calls to the cooldown gate with interval T,
the recorded dispatch-start timestamps of consecutive calls always differ
by at least T. -/
theorem cooldown_consecutive_spacing (interval last₀ : ℚ) (arrivals : List ℚ) (i : ℕ)
    (a b : ℚ) (ha : (cooldownRun interval last₀ arrivals).get? i = some a)
    (hb : (cooldownRun interval last₀ arrivals).get? (i + 1) = some b) :
    interval ≤ b - a := by
  induction arrivals generalizing last₀ i with
  | nil => simp [cooldownRun] at ha
  | cons now rest ih =>
      cases i with
      | zero =>
          simp only [cooldownRun, List.get?] at ha hb
          have ha' : cooldownRecord interval last₀ now = a := by simpa using ha
          rw [← ha']
          exact cooldownRun_head_ge interval _ rest b hb
      | succ j =>
          simp only [cooldownRun, List.get?] at ha hb
          exact ih _ j ha hb

/-- C1 witness: with interval 1, initial timestamp 0 and clock readings 0
and 5, the recorded timestamps are 1 and 5 and their difference is at
least the interval. -/
theorem cooldown_consecutive_spacing_witness :
    (cooldownRun 1 0 [0, 5]).get? 0 = some 1 ∧
    (cooldownRun 1 0 [0, 5]).get? 1 = some 5 ∧
    (1 : ℚ) ≤ 5 - 1 :=
  ⟨by norm_num [cooldownRun, cooldownRecord],
   by norm_num [cooldownRun, cooldownRecord],
    cooldown_consecutive_spacing 1 0 [0, 5] 0 1 5
      (by norm_num [cooldownRun, cooldownRecord])
      (by norm_num [cooldownRun, cooldownRecord])⟩

/-! Section: Retry-after extraction

_extract_retry_after_seconds reads a retry-after header off the error
response if present and parsable as a float, and otherwise scans the
stringified message for the first case-insensitive occurrence of the
pattern try again in N s, where N is digits with an optional dot. -/

/-- Digits of a character list read as a natural number. -/
def digitsVal (cs : List Char) : ℕ :=
  cs.foldl (fun a c => a * 10 + (c.toNat - 48)) 0

/-- Splits off the maximal leading run of decimal digits. -/
def takeDigits : List Char → List Char × List Char
  | [] => ([], [])
  | c :: cs =>
      if c.isDigit then
        let p := takeDigits cs
        (c :: p.1, p.2)
      else ([], c :: cs)

/-- Parses an unsigned decimal mantissa (digits, optional dot, digits),
returning its value and the unconsumed remainder. -/
def parseUnsignedDec (cs : List Char) : Option (ℚ × List Char) :=
  let p := takeDigits cs
  match p.2 with
  | '.' :: r₂ =>
      let q := takeDigits r₂
      if p.1.isEmpty && q.1.isEmpty then none
      else some ((digitsVal p.1 : ℚ) + (digitsVal q.1 : ℚ) / (10 : ℚ) ^ q.1.length, q.2)
  | _ => if p.1.isEmpty then none else some ((digitsVal p.1 : ℚ), p.2)

/-- Parses an optionally signed run of digits as an integer. -/
def parseSignedDigits : List Char → Option (ℤ × List Char)
  | '+' :: r =>
      match takeDigits r with
      | ([], _) => none
      | (ds, rest) => some ((digitsVal ds : ℤ), rest)
  | '-' :: r =>
      match takeDigits r with
      | ([], _) => none
      | (ds, rest) => some (-(digitsVal ds : ℤ), rest)
  | r =>
      match takeDigits r with
      | ([], _) => none
      | (ds, rest) => some ((digitsVal ds : ℤ), rest)

/-- Strips leading and trailing whitespace characters. -/
def trimChars (cs : List Char) : List Char :=
  ((cs.dropWhile fun c => c.isWhitespace).reverse.dropWhile fun c =>
    c.isWhitespace).reverse

/-- Models the Python float builtin on finite decimal strings: optional
surrounding whitespace, optional sign, a decimal mantissa, and an optional
decimal exponent. Non-numeric strings (for example an HTTP date in a
retry-after header) yield none, which models the ValueError branch. -/
def pyFloat (s : String) : Option ℚ :=
  let cs := trimChars s.data
  let signed : ℚ × List Char :=
    match cs with
    | '+' :: r => (1, r)
    | '-' :: r => (-1, r)
    | r => (1, r)
  match parseUnsignedDec signed.2 with
  | none => none
  | some (v, rest) =>
      match rest with
      | [] => some (signed.1 * v)
      | 'e' :: r =>
          match parseSignedDigits r with
          | some (ex, []) => some (signed.1 * v * (10 : ℚ) ^ ex)
          | _ => none
      | 'E' :: r =>
          match parseSignedDigits r with
          | some (ex, []) => some (signed.1 * v * (10 : ℚ) ^ ex)
          | _ => none
      | _ => none

/-- Case-insensitive match of a literal pattern against the front of the
input, returning the unconsumed remainder on success. -/
def matchLiteralCI : List Char → List Char → Option (List Char)
  | [], rest => some rest
  | _ :: _, [] => none
  | p :: ps, c :: cs => if c.toLower = p.toLower then matchLiteralCI ps cs else none

/-- After the literal pattern, matches the regex group (digits, optional
dot requiring following digits) immediately followed by the letter s,
case-insensitively, returning the matched group. -/
def matchNumberThenS (cs : List Char) : Option (List Char) :=
  let d := takeDigits cs
  match d.2 with
  | '.' :: r₂ =>
      let f := takeDigits r₂
      if f.1.isEmpty then none
      else
        match f.2 with
        | c :: _ => if c.toLower = 's' then some (d.1 ++ '.' :: f.1) else none
        | [] => none
  | c :: _ =>
      if d.1.isEmpty then none
      else if c.toLower = 's' then some d.1 else none
  | [] => none

/-- Leftmost search for the pattern try again in N s, case-insensitively,
as performed by the regex search in the source. -/
def findRetryAfterInMsg : List Char → Option (List Char)
  | [] => none
  | c :: cs =>
      match matchLiteralCI "try again in ".data (c :: cs) with
      | some rest =>
          match matchNumberThenS rest with
          | some g => some g
          | none => findRetryAfterInMsg cs
      | none => findRetryAfterInMsg cs

/-- The response object attached to a provider error, exposing optional
headers as an association list (Python dict lookup by exact key). -/
structure ErrResponse where
  headers : Option (List (String × String))
deriving DecidableEq, Repr

/-- The observable content of a provider error: its optional response and
its stringified message. -/
structure ErrInfo where
  response : Option ErrResponse
  message : String
deriving DecidableEq, Repr

/-- Dict-style lookup of a header value. -/
def headersGet (hs : List (String × String)) (k : String) : Option String :=
  (hs.find? (fun p => p.1 == k)).map Prod.snd

/-- Python or on optional strings: a present, non-empty left operand wins,
otherwise the right operand is returned as is. -/
def pyOrStr : Option String → Option String → Option String
  | some v, b => if v = "" then b else some v
  | none, b => b

/-- Embeds _extract_retry_after_seconds: the retry-after header (either
spelling, when the error carries a response with headers) is tried first
and parsed as a float; on absence or parse failure the message text is
scanned for the try again in N s pattern; otherwise none. -/
def _extract_retry_after_seconds (e : ErrInfo) : Option ℚ :=
  let fromHeader : Option ℚ :=
    match e.response with
    | some resp =>
        match resp.headers with
        | some hs =>
            match pyOrStr (headersGet hs "retry-after") (headersGet hs "Retry-After") with
            | some v => if v = "" then none else pyFloat v
            | none => none
        | none => none
    | none => none
  match fromHeader with
  | some q => some q
  | none => (findRetryAfterInMsg e.message.data).bind (fun g => pyFloat (String.mk g))

/-! Section: OpenAI-style request executor -/

/-- The message object inside a choice; content may be absent (None). -/
structure CompletionMessage where
  content : Option String
deriving DecidableEq, Repr

/-- One choice entry of a chat-completion response. -/
structure ChatChoice where
  message : CompletionMessage
deriving DecidableEq, Repr

/-- The completion_tokens_details usage record. -/
structure TokenDetails where
  reasoning_tokens : Option Int
  accepted_prediction_tokens : Option Int
deriving DecidableEq, Repr

/-- The usage record of a response. -/
structure ChatUsage where
  completion_tokens_details : Option TokenDetails
deriving DecidableEq, Repr

/-- A chat-completion response as far as the executor inspects it. -/
structure ChatResponse where
  choices : Option (List ChatChoice)
  usage : Option ChatUsage
deriving DecidableEq, Repr

/-- The classes of OpenAIError the executor distinguishes. -/
inductive OpenAIErrorKind where
  | badRequest (info : ErrInfo)
  | rateLimit (info : ErrInfo)
  | apiConnection (info : ErrInfo)
  | otherError (info : ErrInfo)
deriving DecidableEq, Repr

/-- The outcome of one call into the vendor client. -/
inductive ProviderOutcome where
  | success (r : ChatResponse)
  | failure (e : OpenAIErrorKind)
deriving DecidableEq, Repr

/-- Outcome of the while loop of request_chatgpt_engine: the held
response, whether the fatal exception was raised, the number of provider
calls dispatched, and the sleep durations in order (one per handled
error). -/
structure ChatLoopResult where
  ret : Option ChatResponse
  raised : Bool
  dispatches : ℕ
  sleeps : List ℚ
deriving DecidableEq, Repr

/-- The retry while loop: fuel is the remaining attempt budget, d the
number of calls dispatched so far (also the index of the next provider
outcome). A BadRequestError raises; a RateLimitError sleeps for the
extracted duration with default 2; an APIConnectionError sleeps 5; any
other OpenAIError sleeps 1; the loop exits on a non-None response. -/
def chatLoopGo (provider : ℕ → ProviderOutcome) : ℕ → ℕ → ChatLoopResult
  | 0, d => { ret := none, raised := false, dispatches := d, sleeps := [] }
  | fuel + 1, d =>
      match provider d with
      | .success r =>
          { ret := some r, raised := false, dispatches := d + 1, sleeps := [] }
      | .failure (.badRequest _) =>
          { ret := none, raised := true, dispatches := d + 1, sleeps := [] }
      | .failure (.rateLimit info) =>
          let res := chatLoopGo provider fuel (d + 1)
          { res with sleeps := ((_extract_retry_after_seconds info).getD 2) :: res.sleeps }
      | .failure (.apiConnection _) =>
          let res := chatLoopGo provider fuel (d + 1)
          { res with sleeps := 5 :: res.sleeps }
      | .failure (.otherError _) =>
          let res := chatLoopGo provider fuel (d + 1)
          { res with sleeps := 1 :: res.sleeps }

/-- The retry loop started with an empty response and zero retries. -/
def chatLoop (provider : ℕ → ProviderOutcome) (max_retries : ℕ) : ChatLoopResult :=
  chatLoopGo provider max_retries 0

/-- Python truthiness test content is None or content equals the empty
string. -/
def pyContentEmpty : Option String → Bool
  | none => true
  | some s => s == ""

/-- The guard ret and ret.choices and len greater than zero and first
content empty or absent. -/
def firstChoiceContentEmpty (r : ChatResponse) : Bool :=
  match r.choices with
  | some (c :: _) => pyContentEmpty c.message.content
  | _ => false

/-- Python or on optional integers, where zero and None are falsy. -/
def pyOrInt : Option Int → Option Int → Option Int
  | some v, b => if v = 0 then b else some v
  | none, b => b

/-- The configured cap: config.get max_tokens or config.get
max_completion_tokens under Python or semantics. -/
def capValue (cfg : Config) : Option Int :=
  pyOrInt cfg.max_tokens cfg.max_completion_tokens

/-- Python truthiness of an optional integer. -/
def truthyInt : Option Int → Bool
  | some v => v != 0
  | none => false

/-- Chained getattr access to usage.completion_tokens_details. -/
def respDetails (r : ChatResponse) : Option TokenDetails :=
  r.usage.bind ChatUsage.completion_tokens_details

/-- Chained getattr access to the reasoning token count. -/
def reasoningOf (r : ChatResponse) : Option Int :=
  (respDetails r).bind TokenDetails.reasoning_tokens

/-- Chained getattr access to the accepted prediction token count. -/
def acceptedOf (r : ChatResponse) : Option Int :=
  (respDetails r).bind TokenDetails.accepted_prediction_tokens

/-- The membership test accepted_pred in the pair of zero and None. -/
def acceptedZeroOrAbsent (r : ChatResponse) : Bool :=
  match acceptedOf r with
  | some a => a == 0
  | none => true

/-- The full guard controlling the token-budget-bump retry: response held,
choices present and non-empty with empty or absent first content, truthy
cap, truthy reasoning-token count, accepted tokens zero or absent. -/
def shouldBump (cfg : Config) (ret : Option ChatResponse) : Bool :=
  match ret with
  | none => false
  | some r =>
      firstChoiceContentEmpty r && truthyInt (capValue cfg) &&
        truthyInt (reasoningOf r) && acceptedZeroOrAbsent r

/-- Overall outcome of request_chatgpt_engine, including whether the bump
retry dispatched and the final (possibly mutated) configuration. -/
structure ChatExecResult where
  ret : Option ChatResponse
  raised : Bool
  dispatches : ℕ
  sleeps : List ℚ
  bumped : Bool
  finalConfig : Config
deriving DecidableEq, Repr

/-- The raised token ceiling: old cap plus the maximum of 512 and the
floor of half the old cap (Python floor division). -/
def bumpedCap (cap : Int) : Int := cap + max 512 (Int.fdiv cap 2)

/-- The post-loop section of request_chatgpt_engine: on the fatal
exception nothing further runs; otherwise, when the bump guard holds, both
token-ceiling fields are overwritten in place and one more provider call
is made, whose failure is swallowed, keeping the pre-bump response. -/
def afterLoop (provider : ℕ → ProviderOutcome) (cfg : Config) (lr : ChatLoopResult) :
    ChatExecResult :=
  if lr.raised then
    { ret := none, raised := true, dispatches := lr.dispatches, sleeps := lr.sleeps,
      bumped := false, finalConfig := cfg }
  else if shouldBump cfg lr.ret then
    match capValue cfg with
    | some cap =>
        let cfg₂ : Config := { cfg with max_tokens := some (bumpedCap cap),
                                        max_completion_tokens := some (bumpedCap cap) }
        match provider lr.dispatches with
        | .success r₂ =>
            { ret := some r₂, raised := false, dispatches := lr.dispatches + 1,
              sleeps := lr.sleeps, bumped := true, finalConfig := cfg₂ }
        | .failure _ =>
            { ret := lr.ret, raised := false, dispatches := lr.dispatches + 1,
              sleeps := lr.sleeps, bumped := true, finalConfig := cfg₂ }
    | none =>
        { ret := lr.ret, raised := false, dispatches := lr.dispatches,
          sleeps := lr.sleeps, bumped := false, finalConfig := cfg }
  else
    { ret := lr.ret, raised := false, dispatches := lr.dispatches,
      sleeps := lr.sleeps, bumped := false, finalConfig := cfg }

/-- Embeds request_chatgpt_engine: the bounded retry loop followed by the
one-shot token-budget-bump section. -/
def request_chatgpt_engine (provider : ℕ → ProviderOutcome) (cfg : Config)
    (max_retries : ℕ) : ChatExecResult :=
  afterLoop provider cfg (chatLoop provider max_retries)

/-- True exactly on the BadRequestError class, the only fatal error. -/
def isBadRequest : ProviderOutcome → Bool
  | .failure (.badRequest _) => true
  | _ => false

/-- True exactly on the retryable error classes: rate limit, connection
and unclassified provider errors. -/
def isHandledError : ProviderOutcome → Bool
  | .failure (.badRequest _) => false
  | .failure _ => true
  | .success _ => false

lemma chatLoopGo_dispatches_le (provider : ℕ → ProviderOutcome) (fuel : ℕ) :
    ∀ d, (chatLoopGo provider fuel d).dispatches ≤ d + fuel := by
  induction fuel with
  | zero => intro d; simp [chatLoopGo]
  | succ n ih =>
      intro d
      cases hp : provider d with
      | success r => simp [chatLoopGo, hp] <;> omega
      | failure e =>
          cases e <;> simp [chatLoopGo, hp] <;> (have hstep := ih (d + 1); omega)

lemma chatLoopGo_dispatches_start_le (provider : ℕ → ProviderOutcome) (fuel : ℕ) :
    ∀ d, d ≤ (chatLoopGo provider fuel d).dispatches := by
  induction fuel with
  | zero => intro d; simp [chatLoopGo]
  | succ n ih =>
      intro d
      cases hp : provider d with
      | success r => simp [chatLoopGo, hp]
      | failure e =>
          cases e <;> simp [chatLoopGo, hp] <;> (have hstep := ih (d + 1); omega)

lemma chatLoopGo_dispatches_ge (provider : ℕ → ProviderOutcome) (fuel d : ℕ)
    (h : 0 < fuel) : d + 1 ≤ (chatLoopGo provider fuel d).dispatches := by
  cases fuel with
  | zero => omega
  | succ n =>
      cases hp : provider d with
      | success r => simp [chatLoopGo, hp]
      | failure e =>
          cases e <;> simp [chatLoopGo, hp] <;>
            (have hstep := chatLoopGo_dispatches_start_le provider n (d + 1); omega)

lemma chatLoopGo_raised_of_no_badRequest (provider : ℕ → ProviderOutcome) (fuel : ℕ)
    (h : ∀ i, isBadRequest (provider i) = false) :
    ∀ d, (chatLoopGo provider fuel d).raised = false := by
  induction fuel with
  | zero => intro d; simp [chatLoopGo]
  | succ n ih =>
      intro d
      cases hp : provider d with
      | success r => simp [chatLoopGo, hp]
      | failure e =>
          cases e with
          | badRequest info => have := h d; rw [hp] at this; simp [isBadRequest] at this
          | rateLimit info => simp [chatLoopGo, hp]; exact ih (d + 1)
          | apiConnection info => simp [chatLoopGo, hp]; exact ih (d + 1)
          | otherError info => simp [chatLoopGo, hp]; exact ih (d + 1)

lemma chatLoopGo_badRequest_immediate (provider : ℕ → ProviderOutcome) :
    ∀ (k fuel d : ℕ) info, k < fuel →
    provider (d + k) = .failure (.badRequest info) →
    (∀ j, j < k → isHandledError (provider (d + j)) = true) →
    (chatLoopGo provider fuel d).raised = true ∧
    (chatLoopGo provider fuel d).dispatches = d + k + 1 := by
  intro k
  induction k with
  | zero =>
      intro fuel d info hk hbr _
      cases fuel with
      | zero => omega
      | succ n =>
          rw [Nat.add_zero] at hbr
          simp [chatLoopGo, hbr]
  | succ j ih =>
      intro fuel d info hk hbr hprev
      cases fuel with
      | zero => omega
      | succ n =>
          have hd := hprev 0 (Nat.succ_pos j)
          rw [Nat.add_zero] at hd
          cases hp : provider d with
          | success r => rw [hp] at hd; simp [isHandledError] at hd
          | failure e =>
              have hshift : d + (j + 1) = (d + 1) + j := by omega
              rw [hshift] at hbr
              have hprev' : ∀ i, i < j → isHandledError (provider ((d + 1) + i)) = true := by
                intro i hi
                have := hprev (i + 1) (by omega)
                have heq : d + (i + 1) = (d + 1) + i := by omega
                rwa [heq] at this
              have hrec := ih n (d + 1) info (by omega) hbr hprev'
              cases e with
              | badRequest i₀ => rw [hp] at hd; simp [isHandledError] at hd
              | rateLimit i₀ =>
                  simp only [chatLoopGo, hp]
                  refine ⟨hrec.1, ?_⟩
                  rw [hrec.2]; omega
              | apiConnection i₀ =>
                  simp only [chatLoopGo, hp]
                  refine ⟨hrec.1, ?_⟩
                  rw [hrec.2]; omega
              | otherError i₀ =>
                  simp only [chatLoopGo, hp]
                  refine ⟨hrec.1, ?_⟩
                  rw [hrec.2]; omega

lemma chatLoopGo_all_handled (provider : ℕ → ProviderOutcome) (fuel : ℕ)
    (h : ∀ i, isHandledError (provider i) = true) :
    ∀ d, (chatLoopGo provider fuel d).ret = none ∧
      (chatLoopGo provider fuel d).raised = false := by
  induction fuel with
  | zero => intro d; simp [chatLoopGo]
  | succ n ih =>
      intro d
      have hd := h d
      cases hp : provider d with
      | success r => rw [hp] at hd; simp [isHandledError] at hd
      | failure e =>
          cases e with
          | badRequest info => rw [hp] at hd; simp [isHandledError] at hd
          | rateLimit info => simp [chatLoopGo, hp]; exact ih (d + 1)
          | apiConnection info => simp [chatLoopGo, hp]; exact ih (d + 1)
          | otherError info => simp [chatLoopGo, hp]; exact ih (d + 1)

lemma chatLoopGo_rateLimit_sleep (provider : ℕ → ProviderOutcome) :
    ∀ (k fuel d : ℕ) info, k < fuel →
    provider (d + k) = .failure (.rateLimit info) →
    (∀ j, j < k → isHandledError (provider (d + j)) = true) →
    (chatLoopGo provider fuel d).sleeps.get? k =
      some ((_extract_retry_after_seconds info).getD 2) ∧
    (k + 1 < fuel → d + k + 2 ≤ (chatLoopGo provider fuel d).dispatches) := by
  intro k
  induction k with
  | zero =>
      intro fuel d info hk hrl _
      cases fuel with
      | zero => omega
      | succ n =>
          rw [Nat.add_zero] at hrl
          constructor
          · simp [chatLoopGo, hrl]
          · intro h1
            have := chatLoopGo_dispatches_ge provider n (d + 1) (by omega)
            simp only [chatLoopGo, hrl]
            omega
  | succ j ih =>
      intro fuel d info hk hrl hprev
      cases fuel with
      | zero => omega
      | succ n =>
          have hd := hprev 0 (Nat.succ_pos j)
          rw [Nat.add_zero] at hd
          have hshift : d + (j + 1) = (d + 1) + j := by omega
          rw [hshift] at hrl
          have hprev' : ∀ i, i < j → isHandledError (provider ((d + 1) + i)) = true := by
            intro i hi
            have := hprev (i + 1) (by omega)
            have heq : d + (i + 1) = (d + 1) + i := by omega
            rwa [heq] at this
          have hrec := ih n (d + 1) info (by omega) hrl hprev'
          cases hp : provider d with
          | success r => rw [hp] at hd; simp [isHandledError] at hd
          | failure e =>
              cases e with
              | badRequest i₀ => rw [hp] at hd; simp [isHandledError] at hd
              | rateLimit i₀ =>
                  simp only [chatLoopGo, hp]
                  refine ⟨hrec.1, fun h1 => ?_⟩
                  have := hrec.2 (by omega)
                  omega
              | apiConnection i₀ =>
                  simp only [chatLoopGo, hp]
                  refine ⟨hrec.1, fun h1 => ?_⟩
                  have := hrec.2 (by omega)
                  omega
              | otherError i₀ =>
                  simp only [chatLoopGo, hp]
                  refine ⟨hrec.1, fun h1 => ?_⟩
                  have := hrec.2 (by omega)
                  omega

lemma shouldBump_cap (cfg : Config) (oret : Option ChatResponse)
    (h : shouldBump cfg oret = true) : ∃ cap, capValue cfg = some cap := by
  cases oret with
  | none => simp [shouldBump] at h
  | some r =>
      simp only [shouldBump, Bool.and_eq_true] at h
      obtain ⟨⟨⟨_, hcap⟩, _⟩, _⟩ := h
      cases hv : capValue cfg with
      | none => rw [hv] at hcap; simp [truthyInt] at hcap
      | some v => exact ⟨v, rfl⟩

lemma afterLoop_raised (provider : ℕ → ProviderOutcome) (cfg : Config)
    (lr : ChatLoopResult) : (afterLoop provider cfg lr).raised = lr.raised := by
  by_cases h : lr.raised = true
  · simp [afterLoop, h]
  · simp only [Bool.not_eq_true] at h
    by_cases hb : shouldBump cfg lr.ret = true
    · obtain ⟨cap, hcap⟩ := shouldBump_cap cfg lr.ret hb
      cases hp : provider lr.dispatches <;> simp [afterLoop, h, hb, hcap, hp]
    · simp only [Bool.not_eq_true] at hb
      simp [afterLoop, h, hb]

lemma afterLoop_sleeps (provider : ℕ → ProviderOutcome) (cfg : Config)
    (lr : ChatLoopResult) : (afterLoop provider cfg lr).sleeps = lr.sleeps := by
  by_cases h : lr.raised = true
  · simp [afterLoop, h]
  · simp only [Bool.not_eq_true] at h
    by_cases hb : shouldBump cfg lr.ret = true
    · obtain ⟨cap, hcap⟩ := shouldBump_cap cfg lr.ret hb
      cases hp : provider lr.dispatches <;> simp [afterLoop, h, hb, hcap, hp]
    · simp only [Bool.not_eq_true] at hb
      simp [afterLoop, h, hb]

lemma afterLoop_dispatches_le (provider : ℕ → ProviderOutcome) (cfg : Config)
    (lr : ChatLoopResult) :
    (afterLoop provider cfg lr).dispatches ≤ lr.dispatches + 1 := by
  by_cases h : lr.raised = true
  · simp [afterLoop, h]
  · simp only [Bool.not_eq_true] at h
    by_cases hb : shouldBump cfg lr.ret = true
    · obtain ⟨cap, hcap⟩ := shouldBump_cap cfg lr.ret hb
      cases hp : provider lr.dispatches <;> simp [afterLoop, h, hb, hcap, hp]
    · simp only [Bool.not_eq_true] at hb
      simp [afterLoop, h, hb]

lemma afterLoop_dispatches_of_raised (provider : ℕ → ProviderOutcome) (cfg : Config)
    (lr : ChatLoopResult) (h : lr.raised = true) :
    (afterLoop provider cfg lr).dispatches = lr.dispatches := by
  simp [afterLoop, h]

lemma afterLoop_ret_of_not_bump (provider : ℕ → ProviderOutcome) (cfg : Config)
    (lr : ChatLoopResult) (h : lr.raised = false)
    (hb : shouldBump cfg lr.ret = false) :
    (afterLoop provider cfg lr).ret = lr.ret := by
  simp [afterLoop, h, hb]

lemma afterLoop_bumped (provider : ℕ → ProviderOutcome) (cfg : Config)
    (lr : ChatLoopResult) (h : lr.raised = false) :
    ((afterLoop provider cfg lr).bumped = true ↔ shouldBump cfg lr.ret = true) := by
  by_cases hb : shouldBump cfg lr.ret = true
  · obtain ⟨cap, hcap⟩ := shouldBump_cap cfg lr.ret hb
    cases hp : provider lr.dispatches <;> simp [afterLoop, h, hb, hcap, hp]
  · simp only [Bool.not_eq_true] at hb
    simp [afterLoop, h, hb]

lemma afterLoop_bump_effect (provider : ℕ → ProviderOutcome) (cfg : Config)
    (lr : ChatLoopResult) (cap : Int) (hcap : capValue cfg = some cap)
    (hb : (afterLoop provider cfg lr).bumped = true) :
    (afterLoop provider cfg lr).finalConfig.max_tokens = some (bumpedCap cap) ∧
    (afterLoop provider cfg lr).finalConfig.max_completion_tokens = some (bumpedCap cap) ∧
    (afterLoop provider cfg lr).dispatches = lr.dispatches + 1 ∧
    ∀ r₂, provider lr.dispatches = .success r₂ →
      (afterLoop provider cfg lr).ret = some r₂ := by
  by_cases h : lr.raised = true
  · simp [afterLoop, h] at hb
  · simp only [Bool.not_eq_true] at h
    by_cases hsb : shouldBump cfg lr.ret = true
    · cases hp : provider lr.dispatches <;>
        simp [afterLoop, h, hsb, hcap, hp]
    · simp only [Bool.not_eq_true] at hsb
      simp [afterLoop, h, hsb] at hb

lemma afterLoop_config_of_not_bumped (provider : ℕ → ProviderOutcome) (cfg : Config)
    (lr : ChatLoopResult) (hb : (afterLoop provider cfg lr).bumped = false) :
    (afterLoop provider cfg lr).finalConfig = cfg := by
  by_cases h : lr.raised = true
  · simp [afterLoop, h]
  · simp only [Bool.not_eq_true] at h
    by_cases hsb : shouldBump cfg lr.ret = true
    · obtain ⟨cap, hcap⟩ := shouldBump_cap cfg lr.ret hsb
      cases hp : provider lr.dispatches <;> simp [afterLoop, h, hsb, hcap, hp] at hb
    · simp only [Bool.not_eq_true] at hsb
      simp [afterLoop, h, hsb]

lemma firstChoiceContentEmpty_iff (r : ChatResponse) :
    firstChoiceContentEmpty r = true ↔
      ∃ c cs, r.choices = some (c :: cs) ∧
        (c.message.content = none ∨ c.message.content = some "") := by
  unfold firstChoiceContentEmpty
  cases hch : r.choices with
  | none => simp
  | some l =>
      cases l with
      | nil => simp
      | cons c cs =>
          constructor
          · intro h
            have h' : pyContentEmpty c.message.content = true := h
            refine ⟨c, cs, rfl, ?_⟩
            cases hc : c.message.content with
            | none => exact Or.inl rfl
            | some s =>
                right
                rw [hc] at h'
                simp only [pyContentEmpty, beq_iff_eq] at h'
                rw [h']
          · rintro ⟨c', cs', hcc, hor⟩
            simp only [Option.some.injEq, List.cons.injEq] at hcc
            show pyContentEmpty c.message.content = true
            rw [hcc.1]
            rcases hor with h | h <;> rw [h] <;> rfl

lemma truthyInt_iff (o : Option Int) :
    truthyInt o = true ↔ ∃ v, o = some v ∧ v ≠ 0 := by
  cases o <;> simp [truthyInt, bne_iff_ne]

lemma acceptedZeroOrAbsent_iff (r : ChatResponse) :
    acceptedZeroOrAbsent r = true ↔
      (acceptedOf r = some 0 ∨ acceptedOf r = none) := by
  unfold acceptedZeroOrAbsent
  cases h : acceptedOf r <;> simp [h]

lemma shouldBump_iff (cfg : Config) (oret : Option ChatResponse) :
    shouldBump cfg oret = true ↔
      ∃ r, oret = some r ∧
        (∃ c cs, r.choices = some (c :: cs) ∧
          (c.message.content = none ∨ c.message.content = some "")) ∧
        (∃ cap, capValue cfg = some cap ∧ cap ≠ 0) ∧
        (∃ rt, reasoningOf r = some rt ∧ rt ≠ 0) ∧
        (acceptedOf r = some 0 ∨ acceptedOf r = none) := by
  cases oret with
  | none => simp [shouldBump]
  | some r =>
      constructor
      · intro h
        simp only [shouldBump, Bool.and_eq_true] at h
        obtain ⟨⟨⟨h1, h2⟩, h3⟩, h4⟩ := h
        exact ⟨r, rfl, (firstChoiceContentEmpty_iff r).mp h1,
          (truthyInt_iff _).mp h2, (truthyInt_iff _).mp h3,
          (acceptedZeroOrAbsent_iff r).mp h4⟩
      · rintro ⟨r', hr', hfc, hcap, hrt, hacc⟩
        have hrr : r = r' := Option.some.inj hr'
        rw [hrr]
        simp only [shouldBump, Bool.and_eq_true]
        exact ⟨⟨⟨(firstChoiceContentEmpty_iff r').mpr hfc,
          (truthyInt_iff _).mpr hcap⟩,
          (truthyInt_iff _).mpr hrt⟩,
          (acceptedZeroOrAbsent_iff r').mpr hacc⟩

/-! Section: Concrete fixtures for the OpenAI-style executor -/

/-- An unclassified provider error. -/
def infoBoom : ErrInfo := { response := none, message := "boom" }

/-- A malformed-request provider error. -/
def infoBad : ErrInfo := { response := none, message := "bad request" }

/-- A rate-limit error suggesting a wait of half a time unit in its
message text. -/
def infoRL : ErrInfo :=
  { response := none, message := "Rate limit reached. Please try again in 0.5s." }

/-- Usage details reporting 5 reasoning tokens and 0 accepted prediction
tokens. -/
def detailsSmall : TokenDetails :=
  { reasoning_tokens := some 5, accepted_prediction_tokens := some 0 }

/-- A response with empty first-choice content whose usage details report
5 reasoning tokens and 0 accepted prediction tokens. -/
def respBumpSmall : ChatResponse :=
  { choices := some [{ message := { content := some "" } }],
    usage := some { completion_tokens_details := some detailsSmall } }

/-- A response with non-empty content. -/
def respGood : ChatResponse :=
  { choices := some [{ message := { content := some "Here is the patch." } }],
    usage := none }

/-- A configuration with token ceiling 1024 under max_completion_tokens,
as built by create_chatgpt_config. -/
def cfgBump : Config := { max_completion_tokens := some 1024 }

/-- Provider returning the empty-content reasoning response forever. -/
def providerSmall : ℕ → ProviderOutcome := fun _ => .success respBumpSmall

/-- Provider returning the empty-content reasoning response first, then a
non-empty response. -/
def providerRetry : ℕ → ProviderOutcome :=
  fun i => if i = 0 then .success respBumpSmall else .success respGood

/-- Provider failing with unclassified errors for 39 calls, then
returning the empty-content reasoning response. -/
def providerLate : ℕ → ProviderOutcome :=
  fun i => if i < 39 then .failure (.otherError infoBoom) else .success respBumpSmall

/-- Provider always raising the malformed-request error. -/
def providerBad : ℕ → ProviderOutcome := fun _ => .failure (.badRequest infoBad)

/-- Provider raising a rate-limit error once, then succeeding. -/
def providerRL : ℕ → ProviderOutcome :=
  fun i => if i = 0 then .failure (.rateLimit infoRL) else .success respGood

/-! Section: Claims C2, C3, C4, C6 -/

/-- Modelled from the claim wording of C2, for comparison with the source
guard: content empty or absent AND reasoning-token count equal to the
full configured ceiling AND accepted-prediction-token count equal to
zero. -/
def specBumpGuard (cfg : Config) (ret : Option ChatResponse) : Bool :=
  match ret with
  | none => false
  | some r =>
      firstChoiceContentEmpty r &&
        (match capValue cfg, reasoningOf r, acceptedOf r with
         | some cap, some rt, some ap => rt == cap && ap == 0
         | _, _, _ => false)

/-- C2 (counterexample): with ceiling 1024, a response whose first choice
has empty content, reasoning-token count 5 (far below the ceiling) and
accepted-prediction-token count 0 makes request_chatgpt_engine perform
the bump retry even though the condition claimed to be equivalent
(reasoning count equal to the full ceiling) is false. -/
theorem bump_condition_counterexample :
    (request_chatgpt_engine providerSmall cfgBump 1).bumped = true ∧
    (chatLoop providerSmall 1).ret = some respBumpSmall ∧
    specBumpGuard cfgBump (some respBumpSmall) = false := by
  refine ⟨by decide, by decide, by decide⟩

/-- C2 (amended): the bump retry fires if and only if the loop result
holds a response whose choices list is present and non-empty with an
empty or absent first content, the configured ceiling is present and
non-zero, the reasoning-token count is present and non-zero, and the
accepted-prediction-token count is zero or absent. -/
theorem bump_condition_characterization (provider : ℕ → ProviderOutcome) (cfg : Config)
    (mr : ℕ) (hnr : (request_chatgpt_engine provider cfg mr).raised = false) :
    ((request_chatgpt_engine provider cfg mr).bumped = true ↔
      ∃ r, (chatLoop provider mr).ret = some r ∧
        (∃ c cs, r.choices = some (c :: cs) ∧
          (c.message.content = none ∨ c.message.content = some "")) ∧
        (∃ cap, capValue cfg = some cap ∧ cap ≠ 0) ∧
        (∃ rt, reasoningOf r = some rt ∧ rt ≠ 0) ∧
        (acceptedOf r = some 0 ∨ acceptedOf r = none)) := by
  have hlr : (chatLoop provider mr).raised = false := by
    rw [request_chatgpt_engine, afterLoop_raised] at hnr
    exact hnr
  rw [request_chatgpt_engine, afterLoop_bumped provider cfg _ hlr]
  exact shouldBump_iff cfg (chatLoop provider mr).ret

/-- C2 witness: instantiating the characterization at the concrete
empty-content reasoning response. -/
theorem bump_condition_characterization_witness :
    ∃ r, (chatLoop providerSmall 1).ret = some r ∧
      (∃ c cs, r.choices = some (c :: cs) ∧
        (c.message.content = none ∨ c.message.content = some "")) ∧
      (∃ cap, capValue cfgBump = some cap ∧ cap ≠ 0) ∧
      (∃ rt, reasoningOf r = some rt ∧ rt ≠ 0) ∧
      (acceptedOf r = some 0 ∨ acceptedOf r = none) :=
  (bump_condition_characterization providerSmall cfgBump 1 (by decide)).mp (by decide)

/-- C3: when the bump retry fires with configured ceiling cap, both
token-ceiling fields of the final configuration equal
cap + max 512 (cap fdiv 2), exactly one extra dispatch is made, and if
that retried call returns normally its response is the value returned. -/
theorem bump_retry_effect (provider : ℕ → ProviderOutcome) (cfg : Config) (mr : ℕ)
    (cap : Int) (hcap : capValue cfg = some cap)
    (hb : (request_chatgpt_engine provider cfg mr).bumped = true) :
    (request_chatgpt_engine provider cfg mr).finalConfig.max_tokens =
      some (cap + max 512 (Int.fdiv cap 2)) ∧
    (request_chatgpt_engine provider cfg mr).finalConfig.max_completion_tokens =
      some (cap + max 512 (Int.fdiv cap 2)) ∧
    (request_chatgpt_engine provider cfg mr).dispatches =
      (chatLoop provider mr).dispatches + 1 ∧
    ∀ r₂, provider (chatLoop provider mr).dispatches = .success r₂ →
      (request_chatgpt_engine provider cfg mr).ret = some r₂ := by
  rw [request_chatgpt_engine] at hb ⊢
  exact afterLoop_bump_effect provider cfg (chatLoop provider mr) cap hcap hb

/-- C3 witness: with old ceiling 1024 the resubmitted ceiling is 1536 and
the returned response is the retried second one. -/
theorem bump_retry_effect_witness :
    (request_chatgpt_engine providerRetry cfgBump 40).finalConfig.max_tokens =
      some 1536 ∧
    (request_chatgpt_engine providerRetry cfgBump 40).ret = some respGood := by
  have h := bump_retry_effect providerRetry cfgBump 40 1024 rfl (by decide)
  refine ⟨?_, ?_⟩
  · rw [h.1]; decide
  · exact h.2.2.2 respGood (by decide)

/-- C4 (counterexample): with the default budget of 40 attempts, a
provider failing 39 times and then returning the empty-content reasoning
response drives request_chatgpt_engine to 41 dispatches, exceeding the
claimed bound of 40. -/
theorem dispatch_bound_counterexample :
    (request_chatgpt_engine providerLate cfgBump 40).dispatches = 41 := by decide

/-- C4 (amended): request_chatgpt_engine dispatches at most
max_retries + 1 provider calls (the retry loop at most max_retries plus
at most one bump dispatch); it raises only when a malformed-request error
occurs in the loop, where it raises immediately on that attempt with no
further dispatches; and when every outcome is a retryable error it
returns an absent response after exhaustion without raising. -/
theorem dispatch_and_raise_behavior (provider : ℕ → ProviderOutcome) (cfg : Config)
    (mr : ℕ) :
    (request_chatgpt_engine provider cfg mr).dispatches ≤ mr + 1 ∧
    ((∀ i, isBadRequest (provider i) = false) →
      (request_chatgpt_engine provider cfg mr).raised = false) ∧
    (∀ k info, k < mr → provider k = .failure (.badRequest info) →
      (∀ j, j < k → isHandledError (provider j) = true) →
      (request_chatgpt_engine provider cfg mr).raised = true ∧
      (request_chatgpt_engine provider cfg mr).dispatches = k + 1) ∧
    ((∀ i, isHandledError (provider i) = true) →
      (request_chatgpt_engine provider cfg mr).ret = none ∧
      (request_chatgpt_engine provider cfg mr).raised = false) := by
  simp only [request_chatgpt_engine, chatLoop]
  refine ⟨?_, ?_, ?_, ?_⟩
  · have h1 := afterLoop_dispatches_le provider cfg (chatLoopGo provider mr 0)
    have h2 := chatLoopGo_dispatches_le provider mr 0
    omega
  · intro hnb
    rw [afterLoop_raised]
    exact chatLoopGo_raised_of_no_badRequest provider mr hnb 0
  · intro k info hk hbr hprev
    have h := chatLoopGo_badRequest_immediate provider k mr 0 info hk
      (by simpa using hbr) (by intro j hj; simpa using hprev j hj)
    refine ⟨?_, ?_⟩
    · rw [afterLoop_raised]; exact h.1
    · rw [afterLoop_dispatches_of_raised provider cfg _ h.1, h.2]; omega
  · intro hall
    have h := chatLoopGo_all_handled provider mr hall 0
    have hsb : shouldBump cfg (chatLoopGo provider mr 0).ret = false := by
      rw [h.1]; rfl
    refine ⟨?_, ?_⟩
    · rw [afterLoop_ret_of_not_bump provider cfg _ h.2 hsb]; exact h.1
    · rw [afterLoop_raised]; exact h.2

/-- C4 witness: a provider always raising the malformed-request error
makes the executor raise on the very first dispatch. -/
theorem dispatch_and_raise_behavior_witness :
    (request_chatgpt_engine providerBad cfgBump 40).raised = true ∧
    (request_chatgpt_engine providerBad cfgBump 40).dispatches = 1 :=
  (dispatch_and_raise_behavior providerBad cfgBump 40).2.2.1 0 infoBad
    (by omega) rfl (fun j hj => absurd hj (Nat.not_lt_zero j))

/-- C6: when dispatch k of the loop hits a rate-limit error (earlier
dispatches being retryable errors), the sleep recorded for that attempt
is the extracted server-suggested duration with default 2, and while
budget remains the loop dispatches again afterwards. -/
theorem rate_limit_wait_behavior (provider : ℕ → ProviderOutcome) (cfg : Config)
    (mr k : ℕ) (info : ErrInfo) (hk : k < mr)
    (hrl : provider k = .failure (.rateLimit info))
    (hprev : ∀ j, j < k → isHandledError (provider j) = true) :
    (request_chatgpt_engine provider cfg mr).sleeps.get? k =
      some ((_extract_retry_after_seconds info).getD 2) ∧
    (_extract_retry_after_seconds info = none →
      (request_chatgpt_engine provider cfg mr).sleeps.get? k = some 2) ∧
    (k + 1 < mr → k + 2 ≤ (chatLoop provider mr).dispatches) := by
  have h := chatLoopGo_rateLimit_sleep provider k mr 0 info hk
    (by simpa using hrl) (by intro j hj; simpa using hprev j hj)
  have hs : (request_chatgpt_engine provider cfg mr).sleeps =
      (chatLoopGo provider mr 0).sleeps := by
    rw [request_chatgpt_engine, afterLoop_sleeps]; rfl
  refine ⟨?_, ?_, ?_⟩
  · rw [hs]; exact h.1
  · intro hnone
    rw [hs, h.1, hnone]
    rfl
  · intro h1
    have h2 := h.2 h1
    simp only [chatLoop]
    omega

set_option maxRecDepth 40000 in
/-- C6 witness: a rate-limit message suggesting 0.5 seconds makes the
first recorded sleep equal to the extracted half time unit. -/
theorem rate_limit_wait_behavior_witness :
    (request_chatgpt_engine providerRL cfgBump 40).sleeps.get? 0 =
      some ((_extract_retry_after_seconds infoRL).getD 2) ∧
    (_extract_retry_after_seconds infoRL).getD 2 = 1 / 2 :=
  ⟨(rate_limit_wait_behavior providerRL cfgBump 40 0 infoRL (by omega) rfl
      (fun j hj => absurd hj (Nat.not_lt_zero j))).1,
   by
    simp +decide [_extract_retry_after_seconds, infoRL, findRetryAfterInMsg,
      matchLiteralCI, matchNumberThenS, takeDigits, pyFloat, parseUnsignedDec,
      trimChars, digitsVal]
    norm_num⟩

/-! Section: Anthropic-style request executor

request_anthropic_engine retries every exception with a linearly growing
sleep of 10 times the current retry count. The elapsed-versus-timeout
comparison only selects which warning is logged. With prompt_cache the
first content block of the first message is annotated in place before
every dispatch; both the beta prompt-caching call path and the fallback
standard call path are the same abstract provider call here. -/

/-- An opaque Anthropic response object. -/
structure AnthResponse where
  id : ℕ
deriving DecidableEq, Repr

/-- The outcome of one call into the Anthropic client: either a response
or an exception. -/
inductive AnthOutcome where
  | success (r : AnthResponse)
  | failure
deriving DecidableEq, Repr

/-- Embeds the in-place prompt-cache mutation: setting cache_control of
the first content block of the first message to the ephemeral marker. A
missing message list, an empty one, or a first message whose content is a
plain string makes the Python subscripting raise, modelled by none. -/
def applyCacheControl (cfg : Config) : Option Config :=
  match cfg.messages with
  | some (m :: ms) =>
      match m.content with
      | .blocks (b :: bs) =>
          let b' : ContentBlock := { b with cache_control := some { type := "ephemeral" } }
          let m' : ChatMessage := { m with content := .blocks (b' :: bs) }
          some { cfg with messages := some (m' :: ms) }
      | _ => none
  | _ => none

/-- Overall outcome of request_anthropic_engine, with the loop trace:
number of loop iterations, provider calls dispatched, sleeps, warning log
lines, and the final (possibly mutated) configuration. -/
structure AnthExecResult where
  ret : Option AnthResponse
  attempts : ℕ
  dispatches : ℕ
  sleeps : List ℚ
  warnLogs : List String
  finalConfig : Config
deriving DecidableEq, Repr

/-- The retry while loop of request_anthropic_engine: fuel is the
remaining attempt budget, retries the current retry counter, d the number
of dispatched calls. Each failed attempt logs one warning chosen by the
elapsed-versus-timeout comparison and sleeps 10 times the pre-increment
retry counter. elapsed gives the duration of attempt number retries. -/
def anthLoop (provider : ℕ → AnthOutcome) (elapsed : ℕ → ℚ) (timeout : ℚ)
    (prompt_cache : Bool) : ℕ → ℕ → ℕ → Config → AnthExecResult
  | 0, _, d, cfg =>
      { ret := none, attempts := 0, dispatches := d, sleeps := [], warnLogs := [],
        finalConfig := cfg }
  | fuel + 1, retries, d, cfg =>
      let warn : String :=
        if timeout ≤ elapsed retries then "Request timed out. Retrying..."
        else "Retrying after an unknown error..."
      match (if prompt_cache then applyCacheControl cfg else some cfg) with
      | none =>
          let res := anthLoop provider elapsed timeout prompt_cache fuel
            (retries + 1) d cfg
          { res with attempts := res.attempts + 1,
                     sleeps := (10 * (retries : ℚ)) :: res.sleeps,
                     warnLogs := warn :: res.warnLogs }
      | some cfg₁ =>
          match provider d with
          | .success r =>
              { ret := some r, attempts := 1, dispatches := d + 1, sleeps := [],
                warnLogs := [], finalConfig := cfg₁ }
          | .failure =>
              let res := anthLoop provider elapsed timeout prompt_cache fuel
                (retries + 1) (d + 1) cfg₁
              { res with attempts := res.attempts + 1,
                         sleeps := (10 * (retries : ℚ)) :: res.sleeps,
                         warnLogs := warn :: res.warnLogs }

/-- Embeds request_anthropic_engine: the loop started with an empty
response, retry counter zero and no dispatches. -/
def request_anthropic_engine (provider : ℕ → AnthOutcome) (elapsed : ℕ → ℚ)
    (cfg : Config) (max_retries : ℕ) (timeout : ℚ) (prompt_cache : Bool) :
    AnthExecResult :=
  anthLoop provider elapsed timeout prompt_cache max_retries 0 0 cfg

/-! Section: JSON formatter CLI -/

/-- The outcome of reading a file: its text, or an I/O error message. -/
inductive ReadResult where
  | ok (content : String)
  | ioError (msg : String)
deriving DecidableEq, Repr

/-- The environment one .json file presents to format_json_file: the
outcome of reading it, whether json.loads succeeds on the content,
whether json.dumps succeeds, the dumped text, and whether writing back
succeeds. -/
structure FileModel where
  readResult : ReadResult
  parseOk : Bool
  dumpsOk : Bool
  formatted : String
  writeOk : Bool
deriving DecidableEq, Repr

/-- The endswith newline test applied to the dumped text. -/
def endsWithNewline (s : String) : Bool :=
  match s.data.getLast? with
  | some c => c == '\n'
  | none => false

/-- Embeds format_json_file: returns the pair of the changed flag and the
optional error message, following the read, parse, dump, compare, write
sequence of the source. -/
def format_json_file (f : FileModel) : Bool × Option String :=
  match f.readResult with
  | .ioError e => (false, some e)
  | .ok original =>
      if !f.parseOk then (false, some "Invalid JSON")
      else if !f.dumpsOk then (false, some "Failed to serialize JSON")
      else
        let fmt := if endsWithNewline f.formatted then f.formatted
                   else f.formatted ++ "\n"
        if fmt = original then (false, none)
        else if f.writeOk then (true, none)
        else (false, some "Failed to write")

/-- Whether format_json_file reports an error for this file. -/
def fileFailed (f : FileModel) : Bool := (format_json_file f).2.isSome

/-- The changed, unchanged and error tallies of the main loop. The source
iterates the sorted file list; the tallies do not depend on the order, so
the list is consumed front to back here. -/
def tallyFiles : List FileModel → ℕ × ℕ × ℕ
  | [] => (0, 0, 0)
  | f :: fs =>
      let t := tallyFiles fs
      match format_json_file f with
      | (_, some _) => (t.1, t.2.1, t.2.2 + 1)
      | (true, none) => (t.1 + 1, t.2.1, t.2.2)
      | (false, none) => (t.1, t.2.1 + 1, t.2.2)

/-- The exit status and summary counters of a run of the formatter CLI. -/
structure MainResult where
  exitCode : Int
  changed : ℕ
  skipped : ℕ
  errors : ℕ
deriving DecidableEq, Repr

/-- Embeds main of the formatter CLI: argument validation returns 2, an
empty file list returns 0, and otherwise the exit status is 0 when no
file errored and 1 otherwise. -/
def formatter_main (dirExists dirIsDir : Bool) (indent : Int)
    (files : List FileModel) : MainResult :=
  if !dirExists then { exitCode := 2, changed := 0, skipped := 0, errors := 0 }
  else if !dirIsDir then { exitCode := 2, changed := 0, skipped := 0, errors := 0 }
  else if indent < 0 then { exitCode := 2, changed := 0, skipped := 0, errors := 0 }
  else if files.isEmpty then { exitCode := 0, changed := 0, skipped := 0, errors := 0 }
  else
    let t := tallyFiles files
    { exitCode := if t.2.2 = 0 then 0 else 1,
      changed := t.1, skipped := t.2.1, errors := t.2.2 }

lemma anthLoop_timeout_irrelevant (provider : ℕ → AnthOutcome) (elapsed : ℕ → ℚ)
    (pc : Bool) (t₁ t₂ : ℚ) :
    ∀ fuel retries d cfg,
      (anthLoop provider elapsed t₁ pc fuel retries d cfg).ret =
        (anthLoop provider elapsed t₂ pc fuel retries d cfg).ret ∧
      (anthLoop provider elapsed t₁ pc fuel retries d cfg).attempts =
        (anthLoop provider elapsed t₂ pc fuel retries d cfg).attempts ∧
      (anthLoop provider elapsed t₁ pc fuel retries d cfg).dispatches =
        (anthLoop provider elapsed t₂ pc fuel retries d cfg).dispatches ∧
      (anthLoop provider elapsed t₁ pc fuel retries d cfg).sleeps =
        (anthLoop provider elapsed t₂ pc fuel retries d cfg).sleeps ∧
      (anthLoop provider elapsed t₁ pc fuel retries d cfg).finalConfig =
        (anthLoop provider elapsed t₂ pc fuel retries d cfg).finalConfig := by
  intro fuel
  induction fuel with
  | zero => intro retries d cfg; exact ⟨rfl, rfl, rfl, rfl, rfl⟩
  | succ n ih =>
      intro retries d cfg
      cases hmc : (if pc then applyCacheControl cfg else some cfg) with
      | none =>
          obtain ⟨h1, h2, h3, h4, h5⟩ := ih (retries + 1) d cfg
          simp only [anthLoop, hmc]
          exact ⟨h1, by rw [h2], h3, by rw [h4], h5⟩
      | some cfg₁ =>
          cases hp : provider d with
          | success r => simp [anthLoop, hmc, hp]
          | failure =>
              obtain ⟨h1, h2, h3, h4, h5⟩ := ih (retries + 1) (d + 1) cfg₁
              simp only [anthLoop, hmc, hp]
              exact ⟨h1, by rw [h2], h3, by rw [h4], h5⟩

/-- C8: the timeout argument of request_anthropic_engine is purely
diagnostic: two runs differing only in the timeout return the same
response, make the same number of attempts and dispatches, sleep the same
durations, and leave the same final configuration; only the chosen log
message can differ. -/
theorem anthropic_timeout_diagnostic (provider : ℕ → AnthOutcome) (elapsed : ℕ → ℚ)
    (cfg : Config) (mr : ℕ) (pc : Bool) (t₁ t₂ : ℚ) :
    (request_anthropic_engine provider elapsed cfg mr t₁ pc).ret =
      (request_anthropic_engine provider elapsed cfg mr t₂ pc).ret ∧
    (request_anthropic_engine provider elapsed cfg mr t₁ pc).attempts =
      (request_anthropic_engine provider elapsed cfg mr t₂ pc).attempts ∧
    (request_anthropic_engine provider elapsed cfg mr t₁ pc).dispatches =
      (request_anthropic_engine provider elapsed cfg mr t₂ pc).dispatches ∧
    (request_anthropic_engine provider elapsed cfg mr t₁ pc).sleeps =
      (request_anthropic_engine provider elapsed cfg mr t₂ pc).sleeps ∧
    (request_anthropic_engine provider elapsed cfg mr t₁ pc).finalConfig =
      (request_anthropic_engine provider elapsed cfg mr t₂ pc).finalConfig :=
  anthLoop_timeout_irrelevant provider elapsed pc t₁ t₂ mr 0 0 cfg

lemma applyCacheControl_idem (cfg cfg' : Config)
    (h : applyCacheControl cfg = some cfg') :
    applyCacheControl cfg' = some cfg' := by
  cases hm : cfg.messages with
  | none => simp [applyCacheControl, hm] at h
  | some l =>
      cases l with
      | nil => simp [applyCacheControl, hm] at h
      | cons m ms =>
          cases hc : m.content with
          | str s => simp [applyCacheControl, hm, hc] at h
          | blocks bs =>
              cases bs with
              | nil => simp [applyCacheControl, hm, hc] at h
              | cons b bs' =>
                  simp only [applyCacheControl, hm, hc] at h
                  obtain rfl : cfg' = _ := (Option.some.inj h).symm
                  rfl

lemma anthLoop_finalConfig_of_mutation (provider : ℕ → AnthOutcome)
    (elapsed : ℕ → ℚ) (timeout : ℚ) (pc : Bool) :
    ∀ fuel retries d (cfg : Config),
      (if pc then applyCacheControl cfg else some cfg) = some cfg →
      (anthLoop provider elapsed timeout pc fuel retries d cfg).finalConfig = cfg := by
  intro fuel
  induction fuel with
  | zero => intro retries d cfg _; rfl
  | succ n ih =>
      intro retries d cfg hmut
      cases hp : provider d with
      | success r => simp only [anthLoop, hmut, hp]
      | failure =>
          simp only [anthLoop, hmut, hp]
          exact ih (retries + 1) (d + 1) cfg hmut

lemma anthLoop_finalConfig_mutation_none (provider : ℕ → AnthOutcome)
    (elapsed : ℕ → ℚ) (timeout : ℚ) (pc : Bool) :
    ∀ fuel retries d (cfg : Config),
      (if pc then applyCacheControl cfg else some cfg) = none →
      (anthLoop provider elapsed timeout pc fuel retries d cfg).finalConfig = cfg := by
  intro fuel
  induction fuel with
  | zero => intro retries d cfg _; rfl
  | succ n ih =>
      intro retries d cfg hmut
      simp only [anthLoop, hmut]
      exact ih (retries + 1) d cfg hmut

lemma anthLoop_finalConfig_mutation_some (provider : ℕ → AnthOutcome)
    (elapsed : ℕ → ℚ) (timeout : ℚ) (pc : Bool) :
    ∀ fuel retries d (cfg cfg' : Config),
      (if pc then applyCacheControl cfg else some cfg) = some cfg' →
      (if pc then applyCacheControl cfg' else some cfg') = some cfg' →
      0 < fuel →
      (anthLoop provider elapsed timeout pc fuel retries d cfg).finalConfig = cfg' := by
  intro fuel
  cases fuel with
  | zero => intro retries d cfg cfg' _ _ h0; omega
  | succ n =>
      intro retries d cfg cfg' hmut hmut' _
      cases hp : provider d with
      | success r => simp only [anthLoop, hmut, hp]
      | failure =>
          simp only [anthLoop, hmut, hp]
          exact anthLoop_finalConfig_of_mutation provider elapsed timeout pc n
            (retries + 1) (d + 1) cfg' hmut'

lemma afterLoop_config_of_bumped (provider : ℕ → ProviderOutcome) (cfg : Config)
    (lr : ChatLoopResult) (cap : Int) (hcap : capValue cfg = some cap)
    (hb : (afterLoop provider cfg lr).bumped = true) :
    (afterLoop provider cfg lr).finalConfig =
      { cfg with max_tokens := some (bumpedCap cap),
                 max_completion_tokens := some (bumpedCap cap) } := by
  by_cases h : lr.raised = true
  · simp [afterLoop, h] at hb
  · simp only [Bool.not_eq_true] at h
    by_cases hsb : shouldBump cfg lr.ret = true
    · cases hp : provider lr.dispatches <;>
        simp [afterLoop, h, hsb, hcap, hp]
    · simp only [Bool.not_eq_true] at hsb
      simp [afterLoop, h, hsb] at hb

/-! Section: Fixtures for the Anthropic-style executor -/

/-- A plain text content block. -/
def blockHi : ContentBlock := { type := "text", text := "hi" }

/-- A user message holding one text block. -/
def msgHi : ChatMessage := { role := "user", content := .blocks [blockHi] }

/-- A caller-supplied Anthropic configuration with block-structured
content, as built by create_anthropic_config from a string prompt. -/
def cfgAnth : Config :=
  { model := some "claude-2.1", temperature := some 1, max_tokens := some 100,
    messages := some [msgHi] }

/-- The same text block after the in-place cache annotation. -/
def blockHiCached : ContentBlock :=
  { type := "text", text := "hi", cache_control := some { type := "ephemeral" } }

/-- The user message after the in-place cache annotation. -/
def msgHiCached : ChatMessage := { role := "user", content := .blocks [blockHiCached] }

/-- The configuration after the in-place prompt-cache annotation. -/
def cfgAnthMutated : Config :=
  { model := some "claude-2.1", temperature := some 1, max_tokens := some 100,
    messages := some [msgHiCached] }

/-- An Anthropic provider that always succeeds. -/
def anthProviderOk : ℕ → AnthOutcome := fun _ => .success { id := 0 }

/-- Attempt durations: every attempt takes no time. -/
def anthElapsed : ℕ → ℚ := fun _ => 0

/-- C5 (counterexample): request_anthropic_engine with prompt_cache
enabled mutates the caller-supplied configuration in place, so the claim
that only the OpenAI-style bump retry mutates the configuration is false:
after one successful prompt-cache call the message list carries a
cache_control annotation it did not have before. -/
theorem config_mutation_counterexample :
    (request_anthropic_engine anthProviderOk anthElapsed cfgAnth 1 500 true).finalConfig.messages ≠
      cfgAnth.messages ∧
    (request_anthropic_engine anthProviderOk anthElapsed cfgAnth 1 500 true).finalConfig.messages =
      cfgAnthMutated.messages := by
  exact ⟨by decide, by decide⟩

/-- C5 (amended): request_anthropic_engine leaves the configuration
unchanged when prompt_cache is disabled, and with prompt_cache enabled it
changes it exactly to the cache-annotated configuration (or leaves it
unchanged when the annotation itself raises, or when no attempt runs);
request_chatgpt_engine leaves the configuration unchanged unless the bump
retry fires, in which case exactly the two token-ceiling fields are
overwritten. -/
theorem config_mutation_frame :
    (∀ provider elapsed (cfg : Config) (mr : ℕ) (timeout : ℚ),
      (request_anthropic_engine provider elapsed cfg mr timeout false).finalConfig = cfg) ∧
    (∀ provider elapsed (cfg : Config) (mr : ℕ) (timeout : ℚ),
      applyCacheControl cfg = none →
      (request_anthropic_engine provider elapsed cfg mr timeout true).finalConfig = cfg) ∧
    (∀ provider elapsed (cfg cfg' : Config) (mr : ℕ) (timeout : ℚ),
      applyCacheControl cfg = some cfg' → 0 < mr →
      (request_anthropic_engine provider elapsed cfg mr timeout true).finalConfig = cfg') ∧
    (∀ provider (cfg : Config) (mr : ℕ),
      (request_chatgpt_engine provider cfg mr).bumped = false →
      (request_chatgpt_engine provider cfg mr).finalConfig = cfg) ∧
    (∀ provider (cfg : Config) (mr : ℕ) (cap : Int),
      capValue cfg = some cap →
      (request_chatgpt_engine provider cfg mr).bumped = true →
      (request_chatgpt_engine provider cfg mr).finalConfig =
        { cfg with max_tokens := some (cap + max 512 (Int.fdiv cap 2)),
                   max_completion_tokens := some (cap + max 512 (Int.fdiv cap 2)) }) := by
  refine ⟨?_, ?_, ?_, ?_, ?_⟩
  · intro provider elapsed cfg mr timeout
    exact anthLoop_finalConfig_of_mutation provider elapsed timeout false mr 0 0 cfg rfl
  · intro provider elapsed cfg mr timeout h
    exact anthLoop_finalConfig_mutation_none provider elapsed timeout true mr 0 0 cfg h
  · intro provider elapsed cfg cfg' mr timeout h hmr
    exact anthLoop_finalConfig_mutation_some provider elapsed timeout true mr 0 0 cfg cfg'
      h (applyCacheControl_idem cfg cfg' h) hmr
  · intro provider cfg mr hb
    rw [request_chatgpt_engine] at hb ⊢
    exact afterLoop_config_of_not_bumped provider cfg _ hb
  · intro provider cfg mr cap hcap hb
    rw [request_chatgpt_engine] at hb ⊢
    exact afterLoop_config_of_bumped provider cfg _ cap hcap hb

/-- C5 witness: instantiating the frame theorem on the concrete
configuration, in both prompt-cache modes. -/
theorem config_mutation_frame_witness :
    (request_anthropic_engine anthProviderOk anthElapsed cfgAnth 1 500 false).finalConfig =
      cfgAnth ∧
    (request_anthropic_engine anthProviderOk anthElapsed cfgAnth 1 500 true).finalConfig =
      cfgAnthMutated :=
  ⟨config_mutation_frame.1 anthProviderOk anthElapsed cfgAnth 1 500,
   config_mutation_frame.2.2.1 anthProviderOk anthElapsed cfgAnth cfgAnthMutated 1 500
     rfl (by omega)⟩

/-! Section: Claim C9: the formatter exit status -/

lemma tallyFiles_errors (files : List FileModel) :
    (tallyFiles files).2.2 = files.countP fileFailed := by
  induction files with
  | nil => rfl
  | cons f fs ih =>
      unfold tallyFiles
      cases hf : format_json_file f with
      | mk changed err =>
          cases err with
          | none =>
              cases changed <;>
                simp [List.countP_cons, fileFailed, hf, ih]
          | some e =>
              simp [List.countP_cons, fileFailed, hf, ih]

lemma formatter_main_exit_valid (indent : Int) (files : List FileModel)
    (h : 0 ≤ indent) :
    (formatter_main true true indent files).exitCode =
      if files.countP fileFailed = 0 then 0 else 1 := by
  have hneg : ¬ indent < 0 := by omega
  cases files with
  | nil => simp [formatter_main, hneg]
  | cons f fs =>
      simp only [formatter_main, Bool.not_true, List.isEmpty_cons]
      rw [if_neg (by simp), if_neg (by simp), if_neg hneg, if_neg (by simp)]
      simp only [tallyFiles_errors]

/-- C9 (counterexample): a run on a nonexistent directory touches no file
at all, so no file fails, yet the process exits with status 2, refuting
the claim that the exit status is zero in every run where no file
fails. -/
theorem formatter_exit_counterexample :
    (formatter_main false true 2 []).exitCode = 2 ∧
    ([] : List FileModel).countP fileFailed = 0 :=
  ⟨rfl, rfl⟩

/-- C9 (amended): once the arguments validate (directory exists and is a
directory, indent non-negative), the exit status is non-zero exactly when
some file failed to read, parse, serialize or write, and it is then 1;
argument validation failures exit with status 2 regardless of files. -/
theorem formatter_exit_status (indent : Int) (files : List FileModel)
    (h : 0 ≤ indent) :
    ((formatter_main true true indent files).exitCode ≠ 0 ↔
      ∃ f ∈ files, fileFailed f = true) ∧
    ((formatter_main true true indent files).exitCode = 0 ∨
      (formatter_main true true indent files).exitCode = 1) := by
  rw [formatter_main_exit_valid indent files h]
  by_cases hz : files.countP fileFailed = 0
  · rw [if_pos hz]
    constructor
    · constructor
      · intro hne; exact absurd rfl hne
      · rintro ⟨f, hf, hfail⟩
        have := List.countP_eq_zero.mp hz f hf
        rw [hfail] at this
        cases this rfl
    · exact Or.inl rfl
  · rw [if_neg hz]
    constructor
    · constructor
      · intro _
        have hpos : 0 < files.countP fileFailed := Nat.pos_of_ne_zero hz
        obtain ⟨f, hf, hfail⟩ := List.countP_pos_iff.mp hpos
        exact ⟨f, hf, hfail⟩
      · intro _; omega
    · exact Or.inr rfl

/-- A file whose read fails. -/
def fileBadRead : FileModel :=
  { readResult := .ioError "Failed to read", parseOk := true, dumpsOk := true,
    formatted := "x", writeOk := true }

/-- C9 witness: one unreadable file makes the exit status non-zero. -/
theorem formatter_exit_status_witness :
    (formatter_main true true 2 [fileBadRead]).exitCode ≠ 0 :=
  (formatter_exit_status 2 [fileBadRead] (by omega)).1.mpr
    ⟨fileBadRead, List.mem_singleton.mpr rfl, rfl⟩

/-- C10: for every string prompt the Anthropic-style builder produces
exactly one user message holding the prompt in a single text block; for a
list prompt it returns the list unchanged; and the accepted system_message
argument never influences the produced configuration. -/
theorem anthropic_config_no_system :
    (∀ p mt t b s m tools, (create_anthropic_config (.str p) mt t b s m tools).messages =
        some [{ role := "user", content := .blocks [{ type := "text", text := p }] }]) ∧
    (∀ l mt t b s m tools, (create_anthropic_config (.list l) mt t b s m tools).messages =
        some l) ∧
    (∀ msg mt t b s₁ s₂ m tools,
        create_anthropic_config msg mt t b s₁ m tools =
        create_anthropic_config msg mt t b s₂ m tools) := by
  refine ⟨?_, ?_, ?_⟩
  · intro p mt t b s m tools
    exact create_anthropic_config_messages (.str p) mt t b s m tools
  · intro l mt t b s m tools
    exact create_anthropic_config_messages (.list l) mt t b s m tools
  · intro msg mt t b s₁ s₂ m tools
    rfl
